import Mathlib

/-
Verification of the matchmaking / match-lifecycle core of the
algo-rumble-service repository.

The development shallowly embeds the rating engine (`src/match/rating.py`,
`src/business/services/match_rating.py`), the match state machine
(`src/presentation/routes/match.py`, `src/business/services/match.py`,
`src/match/route.py`, `src/match/service.py`,
`src/data/repositories/match_repository.py`) and the Redis queue store
operations, and proves or refutes the specification claims about them.

Numeric model: the Python code computes ratings with IEEE-754 doubles; we
embed that arithmetic over ℝ (its ideal value).  All rating quantities in
the claims are far from rounding boundaries, where the double and the real
computation agree.  Python's built-in `round` (round half to even) is
modelled by `pyRound`.

Database and Redis state are modelled explicitly: `DBState` carries the
match rows and the users' ratings, `RedisState` the matchmaking sorted set
and the per-user `queue:user:<id>` markers.  Each HTTP handler / service
method becomes a function from state to state (paired with an optional
error, mirroring the exception raised); timer bodies become functions
applied after their sleep.  Notification fan-out, logging and SQL plumbing
carry no state relevant to the claims and are not modelled.
-/

namespace AlgoRumble

/-! ## Rating engine (match/rating.py, business/services/match_rating.py) -/

/-- Python's built-in `round` applied to the real value of a float
expression: round half to even (banker's rounding). -/
noncomputable def pyRound (x : ℝ) : ℤ :=
  if Int.fract x < 1 / 2 then ⌊x⌋
  else if 1 / 2 < Int.fract x then ⌊x⌋ + 1
  else if Even ⌊x⌋ then ⌊x⌋ else ⌊x⌋ + 1

/-- K-factor (match/rating.py line 29, business/services/match_rating.py
line 13). -/
def K_FACTOR : ℤ := 32

/-- Default rating for new players (match/rating.py line 32). -/
def DEFAULT_RATING : ℤ := 1000

/-- match/rating.py `calculate_expected_score`:
`1 / (1 + 10 ** ((opponent_rating - player_rating) / 400))`. -/
noncomputable def calculate_expected_score (player_rating opponent_rating : ℤ) : ℝ :=
  1 / (1 + (10 : ℝ) ^ (((opponent_rating : ℝ) - (player_rating : ℝ)) / 400))

/-- match/rating.py `calculate_new_rating`:
`round(current_rating + K_FACTOR * (actual_score - expected_score))`. -/
noncomputable def calculate_new_rating (current_rating : ℤ)
    (expected_score actual_score : ℝ) : ℤ :=
  pyRound ((current_rating : ℝ) + (K_FACTOR : ℝ) * (actual_score - expected_score))

/-- Rating core of match/rating.py `update_ratings_after_match` (lines
67-130): expected scores for both sides, then actual scores 1.0 (winner)
and 0.0 (loser); the two SQL UPDATEs persist exactly this pair. -/
noncomputable def update_ratings_after_match (winner_rating loser_rating : ℤ) : ℤ × ℤ :=
  (calculate_new_rating winner_rating
      (calculate_expected_score winner_rating loser_rating) 1,
   calculate_new_rating loser_rating
      (calculate_expected_score loser_rating winner_rating) 0)

/-- Rating core of match/rating.py `update_ratings_for_draw` (lines
132-194): both sides get actual score 0.5. -/
noncomputable def update_ratings_for_draw (player1_rating player2_rating : ℤ) : ℤ × ℤ :=
  (calculate_new_rating player1_rating
      (calculate_expected_score player1_rating player2_rating) (1 / 2),
   calculate_new_rating player2_rating
      (calculate_expected_score player2_rating player1_rating) (1 / 2))

namespace RatingService

/-- business/services/match_rating.py `RatingService.calculate_expected_score`
(lines 20-25, same formula as match/rating.py). -/
noncomputable def calculate_expected_score (player_rating opponent_rating : ℤ) : ℝ :=
  1 / (1 + (10 : ℝ) ^ (((opponent_rating : ℝ) - (player_rating : ℝ)) / 400))

/-- business/services/match_rating.py `RatingService.calculate_new_rating`
(lines 27-35). -/
noncomputable def calculate_new_rating (current_rating : ℤ)
    (expected_score actual_score : ℝ) : ℤ :=
  pyRound ((current_rating : ℝ) + (K_FACTOR : ℝ) * (actual_score - expected_score))

end RatingService

/-- One lost match of a player against an opponent of equal rating:
`calculate_new_rating` applied with the player's expected score against
that opponent and actual score 0 (a loss). -/
noncomputable def lossStep (r : ℤ) : ℤ :=
  calculate_new_rating r (calculate_expected_score r r) 0

/-- Rating after `n` consecutive lost matches, each against an opponent of
the player's then-current rating, starting from the default rating 1000. -/
noncomputable def lossSeq : ℕ → ℤ
  | 0 => DEFAULT_RATING
  | n + 1 => lossStep (lossSeq n)

/-! ## Data model (data/schemas/match.py, match/models/match.py) -/

/-- The `MatchStatus` enumeration. -/
inductive MatchStatus
  | CREATED
  | PENDING
  | ACTIVE
  | COMPLETED
  | DECLINED
  | CANCELLED
deriving DecidableEq

/-- Terminal statuses per the data-model invariant on `end_time`. -/
def MatchStatus.isTerminal : MatchStatus → Bool
  | .COMPLETED => true
  | .DECLINED => true
  | .CANCELLED => true
  | _ => false

/-- A `matches` table row.  Ids are abstracted to ℕ, times to ℤ
(epoch seconds). -/
structure MatchRow where
  id : ℕ
  player1_id : ℕ
  player2_id : ℕ
  problem_id : Option ℕ
  status : MatchStatus
  player1_accepted : Bool
  player2_accepted : Bool
  winner_id : Option ℕ
  start_time : Option ℤ
  end_time : Option ℤ
deriving DecidableEq

/-- Persistent-store state: the match rows and the `users.rating` column
keyed by user id. -/
structure DBState where
  matchRows : List MatchRow
  ratings : List (ℕ × ℤ)
deriving DecidableEq

/-- Embeds `get_match_by_id` (data/repositories/match_repository.py lines
182-184): SELECT the row with the given id. -/
def getMatchById (ms : List MatchRow) (mid : ℕ) : Option MatchRow :=
  ms.find? (fun m => m.id == mid)

/-- Committing an updated row: every stored row with the same id takes the
new value. -/
def setMatch (ms : List MatchRow) (m2 : MatchRow) : List MatchRow :=
  ms.map (fun m => if m.id == m2.id then m2 else m)

/-- SELECT a user's rating. -/
def getRating (rs : List (ℕ × ℤ)) (u : ℕ) : Option ℤ :=
  (rs.find? (fun p => p.1 == u)).map (fun p => p.2)

/-- UPDATE users SET rating = r WHERE id = u. -/
def setRating (rs : List (ℕ × ℤ)) (u : ℕ) (r : ℤ) : List (ℕ × ℤ) :=
  rs.map (fun p => if p.1 == u then (u, r) else p)

/-- Whether a user row exists. -/
def userExists (rs : List (ℕ × ℤ)) (u : ℕ) : Bool :=
  rs.any (fun p => p.1 == u)

/-- The error kinds raised by the handlers (src/errors.py):
`ResourceNotFoundException`, `AuthorizationException`,
`BadRequestException`, `ValidationException`. -/
inductive Err
  | notFound
  | authorization
  | badRequest
  | validation
deriving DecidableEq

/-- Whether the row's `start_time` is set and earlier than `t` (the SQL
`Match.start_time < t`, false on NULL). -/
def startedBefore (m : MatchRow) (t : ℤ) : Bool :=
  match m.start_time with
  | some st => decide (st < t)
  | none => false

/-! ## Presentation-layer match routes (presentation/routes/match.py) -/

/-- presentation/routes/match.py `match_acceptance_timeout` (lines 60-97):
after the sleep, re-read the match; if it is still PENDING, set it to
CANCELLED with `end_time = now`; otherwise do nothing. -/
def match_acceptance_timeout (s : DBState) (mid : ℕ) (now : ℤ) : DBState :=
  match getMatchById s.matchRows mid with
  | some m =>
      if m.status = MatchStatus.PENDING then
        let m2 := { m with status := MatchStatus.CANCELLED, end_time := some now }
        { s with matchRows := setMatch s.matchRows m2 }
      else s
  | none => s

/-- presentation/routes/match.py `match_draw_timeout` (lines 100-122):
after the sleep, re-read the match; if it is still ACTIVE, set it to
COMPLETED with `end_time = now`; otherwise do nothing.  No rating update
and no write to `winner_id` occurs in this handler. -/
def match_draw_timeout (s : DBState) (mid : ℕ) (now : ℤ) : DBState :=
  match getMatchById s.matchRows mid with
  | some m =>
      if m.status = MatchStatus.ACTIVE then
        let m2 := { m with status := MatchStatus.COMPLETED, end_time := some now }
        { s with matchRows := setMatch s.matchRows m2 }
      else s
  | none => s

/-- The row update performed by presentation/routes/match.py
`accept_match` once all guards have passed (lines 265-290): set the
caller's acceptance flag; if both flags now hold, the match becomes
ACTIVE with `start_time = now`. -/
def acceptUpdate (m : MatchRow) (uid : ℕ) (now : ℤ) : MatchRow :=
  let m1 := if m.player1_id = uid
    then { m with player1_accepted := true }
    else { m with player2_accepted := true }
  if m1.player1_accepted ∧ m1.player2_accepted
  then { m1 with status := MatchStatus.ACTIVE, start_time := some now }
  else m1

/-- presentation/routes/match.py `accept_match` (lines 206-390): user must
exist, match must exist, caller must be a participant, match must be
PENDING; then the caller's acceptance flag is set and, if both flags are
now true, the match becomes ACTIVE with `start_time = now`. -/
def accept_match (s : DBState) (mid uid : ℕ) (now : ℤ) : DBState × Option Err :=
  if ¬ userExists s.ratings uid then (s, some Err.notFound)
  else
    match getMatchById s.matchRows mid with
    | none => (s, some Err.notFound)
    | some m =>
        if m.player1_id ≠ uid ∧ m.player2_id ≠ uid then (s, some Err.authorization)
        else if m.status ≠ MatchStatus.PENDING then (s, some Err.validation)
        else ({ s with matchRows := setMatch s.matchRows (acceptUpdate m uid now) }, none)

/-- presentation/routes/match.py `decline_match` (lines 349-450): user,
match, participant, PENDING; then DECLINED with `end_time = now`. -/
def decline_match (s : DBState) (mid uid : ℕ) (now : ℤ) : DBState × Option Err :=
  if ¬ userExists s.ratings uid then (s, some Err.notFound)
  else
    match getMatchById s.matchRows mid with
    | none => (s, some Err.notFound)
    | some m =>
        if m.player1_id ≠ uid ∧ m.player2_id ≠ uid then (s, some Err.authorization)
        else if m.status ≠ MatchStatus.PENDING then (s, some Err.validation)
        else
          let m2 := { m with status := MatchStatus.DECLINED, end_time := some now }
          ({ s with matchRows := setMatch s.matchRows m2 }, none)

/-! ## Business-layer MatchService (business/services/match.py) -/

namespace MatchService

/-- business/services/match.py `MatchService.accept_match_service` (lines
399-414): match must exist, must be PENDING, caller must be a participant;
then the status is set directly to ACTIVE.  The per-player acceptance
flags are not touched and no second acceptance is awaited. -/
def accept_match_service (s : DBState) (mid uid : ℕ) : DBState × Option Err :=
  match getMatchById s.matchRows mid with
  | none => (s, some Err.notFound)
  | some m =>
      if m.status ≠ MatchStatus.PENDING then (s, some Err.badRequest)
      else if m.player1_id ≠ uid ∧ m.player2_id ≠ uid then (s, some Err.authorization)
      else
        let m2 := { m with status := MatchStatus.ACTIVE }
        ({ s with matchRows := setMatch s.matchRows m2 }, none)

/-- business/services/match.py `MatchService.decline_match_service` (lines
416-443): match, PENDING, participant; then CANCELLED with
`end_time = now`. -/
def decline_match_service (s : DBState) (mid uid : ℕ) (now : ℤ) : DBState × Option Err :=
  match getMatchById s.matchRows mid with
  | none => (s, some Err.notFound)
  | some m =>
      if m.status ≠ MatchStatus.PENDING then (s, some Err.badRequest)
      else if m.player1_id ≠ uid ∧ m.player2_id ≠ uid then (s, some Err.authorization)
      else
        let m2 := { m with status := MatchStatus.CANCELLED, end_time := some now }
        ({ s with matchRows := setMatch s.matchRows m2 }, none)

/-- business/services/match.py `MatchService.match_acceptance_timeout`
(lines 316-349): if the match is still PENDING, CANCELLED with
`end_time = now`. -/
def match_acceptance_timeout (s : DBState) (mid : ℕ) (now : ℤ) : DBState :=
  match getMatchById s.matchRows mid with
  | some m =>
      if m.status = MatchStatus.PENDING then
        let m2 := { m with status := MatchStatus.CANCELLED, end_time := some now }
        { s with matchRows := setMatch s.matchRows m2 }
      else s
  | none => s

/-- business/services/match.py `MatchService.match_draw_timeout` (lines
353-371): if the match is still ACTIVE, COMPLETED with `end_time = now`.
As in the presentation-layer handler, no rating update and no `winner_id`
write occurs. -/
def match_draw_timeout (s : DBState) (mid : ℕ) (now : ℤ) : DBState :=
  match getMatchById s.matchRows mid with
  | some m =>
      if m.status = MatchStatus.ACTIVE then
        let m2 := { m with status := MatchStatus.COMPLETED, end_time := some now }
        { s with matchRows := setMatch s.matchRows m2 }
      else s
  | none => s

/-- business/services/match.py `MatchService.cancel_expired_matches`
(lines 210-246): every PENDING match whose `start_time` is more than five
minutes (300 s) in the past becomes CANCELLED with `end_time = now`. -/
def cancel_expired_matches (s : DBState) (now : ℤ) : DBState :=
  { s with matchRows := s.matchRows.map (fun m =>
      if m.status = MatchStatus.PENDING ∧ startedBefore m (now - 300) = true
      then { m with status := MatchStatus.CANCELLED, end_time := some now }
      else m) }

end MatchService

/-! ## Data-layer repository (data/repositories/match_repository.py) -/

/-- data/repositories/match_repository.py `finish_match_with_winner`
(lines 187-197): a single unconditional UPDATE of the row with the given
id, setting COMPLETED, the winner and `end_time`. -/
def finish_match_with_winner (s : DBState) (mid winner : ℕ) (now : ℤ) : DBState :=
  { s with matchRows := s.matchRows.map (fun m =>
      if m.id == mid then
        { m with status := MatchStatus.COMPLETED, winner_id := some winner,
                 end_time := some now }
      else m) }

/-! ## Legacy match module (match/service.py, match/route.py) -/

/-- match/service.py line 26: `MATCH_ACCEPTANCE_TIMEOUT = 15` (seconds). -/
def MATCH_ACCEPTANCE_TIMEOUT : ℤ := 15

/-- match/service.py `check_match_timeouts` (lines 253-270): every PENDING
match with `start_time < now - MATCH_ACCEPTANCE_TIMEOUT` becomes DECLINED
with `end_time = now`. -/
def check_match_timeouts (s : DBState) (now : ℤ) : DBState :=
  { s with matchRows := s.matchRows.map (fun m =>
      if m.status = MatchStatus.PENDING ∧
         startedBefore m (now - MATCH_ACCEPTANCE_TIMEOUT) = true
      then { m with status := MatchStatus.DECLINED, end_time := some now }
      else m) }

namespace Route

/-- The row update of match/route.py `accept_match` after its guards
(lines 344-360): set the caller's flag; on both flags, ACTIVE (without
touching `start_time`). -/
def acceptUpdate (m : MatchRow) (uid : ℕ) : MatchRow :=
  let m1 := if m.player1_id = uid
    then { m with player1_accepted := true }
    else { m with player2_accepted := true }
  if m1.player1_accepted ∧ m1.player2_accepted
  then { m1 with status := MatchStatus.ACTIVE }
  else m1

/-- match/route.py `accept_match` (lines 267-380): match must exist and
the caller must be a participant; a PENDING match older than 60 seconds
(`timeout_threshold = start_time + timedelta(seconds=60)`) is
auto-DECLINED with `end_time = now` and the request rejected; otherwise
the caller's flag is set and, when both flags hold, the match becomes
ACTIVE (its `start_time` is not changed here).  A missing `start_time`
cannot occur for rows created by the matchmaker and is modelled as "not
timed out". -/
def accept_match (s : DBState) (mid uid : ℕ) (now : ℤ) : DBState × Option Err :=
  match getMatchById s.matchRows mid with
  | none => (s, some Err.notFound)
  | some m =>
      if m.player1_id ≠ uid ∧ m.player2_id ≠ uid then (s, some Err.authorization)
      else if (match m.start_time with
               | some st => decide (st + 60 < now)
               | none => false) then
        let m2 := { m with status := MatchStatus.DECLINED, end_time := some now }
        ({ s with matchRows := setMatch s.matchRows m2 }, some Err.badRequest)
      else ({ s with matchRows := setMatch s.matchRows (acceptUpdate m uid) }, none)

/-- The row written by a correct verdict in match/route.py
`submit_solution` (lines 752-757): COMPLETED, winner set, `end_time`
set. -/
def completedUpdate (m : MatchRow) (uid : ℕ) (now : ℤ) : MatchRow :=
  { m with status := MatchStatus.COMPLETED, winner_id := some uid,
           end_time := some now }

/-- The persistence effect of match/rating.py `update_ratings_after_match`
(lines 67-130): read both users; if either is missing, return without
writing; otherwise UPDATE both ratings to the computed pair. -/
noncomputable def updateRatingsEffect (rs : List (ℕ × ℤ)) (winner loser : ℕ) :
    List (ℕ × ℤ) :=
  match getRating rs winner, getRating rs loser with
  | some wr, some lr =>
      setRating (setRating rs winner (update_ratings_after_match wr lr).1) loser
        (update_ratings_after_match wr lr).2
  | _, _ => rs

/-- match/route.py `submit_solution` (lines 695-820): match must exist
(not-found), caller must be a participant (authorization), the match must
be ACTIVE (bad request, line 741-747) — the guards fire before any write,
so on failure the store is unchanged.  On a correct verdict the match
becomes COMPLETED with `winner_id = uid`, `end_time = now`, and both
ratings are replaced by `update_ratings_after_match` (match/rating.py,
which leaves ratings alone if either user row is missing).  On an
incorrect verdict nothing changes. -/
noncomputable def submit_solution (s : DBState) (mid uid : ℕ) (is_correct : Bool)
    (now : ℤ) : DBState × Option Err :=
  match getMatchById s.matchRows mid with
  | none => (s, some Err.notFound)
  | some m =>
      if m.player1_id ≠ uid ∧ m.player2_id ≠ uid then (s, some Err.authorization)
      else if m.status ≠ MatchStatus.ACTIVE then (s, some Err.badRequest)
      else if is_correct then
        let loser := if uid = m.player1_id then m.player2_id else m.player1_id
        ({ matchRows := setMatch s.matchRows (completedUpdate m uid now),
           ratings := updateRatingsEffect s.ratings uid loser }, none)
      else (s, none)

end Route

/-! ## Queue store (business/services/match.py, Redis) -/

/-- A matchmaking queue entry (data/schemas/match_schemas/queue.py):
user id, rating, enqueue timestamp. -/
structure PlayerQueueEntry where
  user_id : ℕ
  rating : ℤ
  timestamp : ℤ
deriving DecidableEq

/-- The Redis state relevant to the matchmaker: the `matchmaking_queue`
sorted set (kept in score = timestamp order) and the set of user ids with
a live `queue:user:<id>` marker key. -/
structure RedisState where
  zset : List PlayerQueueEntry
  markers : List ℕ
deriving DecidableEq

/-- Drop the first sorted-set member whose parsed `user_id` matches (the
`for entry_json in queue_entries: ... zrem ... break` loop of
`remove_player_from_queue`). -/
def removeFirstEntry : List PlayerQueueEntry → ℕ → List PlayerQueueEntry
  | [], _ => []
  | e :: es, uid => if e.user_id = uid then es else e :: removeFirstEntry es uid

namespace MatchService

/-- business/services/match.py `MatchService.add_player_to_queue` (lines
32-54): if the `queue:user:<id>` marker exists, refuse; otherwise ZADD the
entry (score = timestamp) and SET the marker. -/
def add_player_to_queue (s : RedisState) (uid : ℕ) (rating now : ℤ) :
    Bool × RedisState :=
  if s.markers.contains uid then (false, s)
  else (true, { zset := s.zset ++ [{ user_id := uid, rating := rating, timestamp := now }],
                markers := uid :: s.markers })

/-- business/services/match.py `MatchService.remove_player_from_queue`
(lines 56-76): if the marker is absent, refuse; otherwise ZREM the first
entry whose user id matches and DELETE the marker key. -/
def remove_player_from_queue (s : RedisState) (uid : ℕ) : Bool × RedisState :=
  if ¬ s.markers.contains uid then (false, s)
  else (true, { zset := removeFirstEntry s.zset uid,
                markers := s.markers.filter (fun x => x ≠ uid) })

end MatchService

/-! ## Pair formation -/

/-- A fresh PENDING match row as built by the matchmakers
(`Match(player1_id=.., player2_id=.., problem_id=.., status=PENDING,
start_time=utcnow())`). -/
def mkPendingMatch (newId p1 p2 : ℕ) (prob : Option ℕ) (now : ℤ) : MatchRow :=
  { id := newId, player1_id := p1, player2_id := p2, problem_id := prob,
    status := MatchStatus.PENDING, player1_accepted := false,
    player2_accepted := false, winner_id := none, start_time := some now,
    end_time := none }

/-- Whether the user has a PENDING or ACTIVE match (the SELECT at the top
of match/service.py `find_match_for_player`, and the opponent re-check). -/
def hasOpenMatch (ms : List MatchRow) (u : ℕ) : Bool :=
  ms.any (fun m =>
    (decide (m.player1_id = u) || decide (m.player2_id = u)) &&
    (decide (m.status = MatchStatus.PENDING) || decide (m.status = MatchStatus.ACTIVE)))

/-- Queue entries other than the requester within `range` rating points
(the list comprehension in `find_match_for_player`). -/
def rangeFilter (queue : List PlayerQueueEntry) (u : ℕ) (r rng : ℤ) :
    List PlayerQueueEntry :=
  queue.filter (fun e => decide (e.user_id ≠ u) && decide (|e.rating - r| ≤ rng))

/-- Stable insertion of an entry into a list sorted by rating distance:
the entry goes before the first element whose distance is not smaller
(elements originally earlier keep their place among equal keys). -/
def insertByDiff (r : ℤ) (e : PlayerQueueEntry) :
    List PlayerQueueEntry → List PlayerQueueEntry
  | [] => [e]
  | a :: as =>
      if |a.rating - r| < |e.rating - r| then a :: insertByDiff r e as
      else e :: a :: as

/-- Python's stable `list.sort(key=lambda x: abs(x.rating - rating))`,
modelled as a stable insertion sort. -/
def sortByDiff (l : List PlayerQueueEntry) (r : ℤ) : List PlayerQueueEntry :=
  l.foldr (insertByDiff r) []

/-- The candidate-selection logic of match/service.py
`find_match_for_player` (lines 160-190): widen the rating band over
[400, 600, 800]; if all bands are empty fall back to every other queued
player; sort candidates by rating distance. -/
def potentialFor (queue : List PlayerQueueEntry) (u : ℕ) (r : ℤ) :
    List PlayerQueueEntry :=
  let p1 := rangeFilter queue u r 400
  if p1 ≠ [] then sortByDiff p1 r
  else
    let p2 := rangeFilter queue u r 600
    if p2 ≠ [] then sortByDiff p2 r
    else
      let p3 := rangeFilter queue u r 800
      if p3 ≠ [] then sortByDiff p3 r
      else sortByDiff (queue.filter (fun e => decide (e.user_id ≠ u))) r

/-- match/service.py `find_match_for_player` (lines 139-248): refuse if
the requester already has a PENDING/ACTIVE match; pick the closest-rated
queued opponent; re-check that the opponent is free (removing a busy
opponent from the in-memory queue); otherwise remove the opponent and
create a PENDING match.  Problem selection (SQL plus `random.choice`) is
abstracted into the `prob` argument; the fresh row id into `newId`.
Returns (matches, queue, created match). -/
def find_match_for_player (ms : List MatchRow) (queue : List PlayerQueueEntry)
    (u : ℕ) (r : ℤ) (newId : ℕ) (prob : Option ℕ) (now : ℤ) :
    List MatchRow × List PlayerQueueEntry × Option MatchRow :=
  if hasOpenMatch ms u then (ms, queue, none)
  else
    match potentialFor queue u r with
    | [] => (ms, queue, none)
    | opp :: _ =>
        if hasOpenMatch ms opp.user_id then (ms, removeFirstEntry queue opp.user_id, none)
        else
          let m := mkPendingMatch newId u opp.user_id prob now
          (ms ++ [m], removeFirstEntry queue opp.user_id, some m)

/-- Scan for the index of the strictly-closest-rated entry, keeping the
first minimum (the `for j in range(i + 1, len(players))` loop with
`if rating_diff < min_rating_diff` in business/services/match.py
`process_match_queue`). -/
def scanBest (ri : ℤ) : List (ℕ × PlayerQueueEntry) → Option (ℕ × ℤ) → Option (ℕ × ℤ)
  | [], acc => acc
  | (j, p) :: rest, acc =>
      let d := |p.rating - ri|
      match acc with
      | none => scanBest ri rest (some (j, d))
      | some (k, dk) =>
          if d < dk then scanBest ri rest (some (j, d))
          else scanBest ri rest (some (k, dk))

/-- Computes `best_match_idx` for position `i` of the tick loop. -/
def bestMatchIdx (players : List PlayerQueueEntry) (i : ℕ) : Option ℕ :=
  match players.get? i with
  | none => none
  | some pi =>
      (scanBest pi.rating (List.enumFrom (i + 1) (players.drop (i + 1))) none).map
        (fun x => x.1)

/-- The loop state of business/services/match.py
`MatchService.process_match_queue` (lines 96-172): the index `i` and the
matches created so far (committed to the database as they are created). -/
structure TickState where
  i : ℕ
  created : List MatchRow
deriving DecidableEq

/-- One iteration of the `while i < len(players) - 1` loop of
`process_match_queue`, on the success path (match creation committed, no
exception).  Note that the success branch of the source appends the new
match but does not advance `i`; only the exception handler and the
no-candidate branch run `i += 1`.  Fresh row ids are `baseId` plus the
count of matches created so far; problem selection is abstracted into
`prob`. -/
def tickStep (players : List PlayerQueueEntry) (baseId : ℕ) (prob : Option ℕ)
    (now : ℤ) (st : TickState) : TickState :=
  if st.i + 1 < players.length then
    match bestMatchIdx players st.i with
    | some j =>
        match players.get? st.i, players.get? j with
        | some p1, some p2 =>
            { st with created := st.created ++
                [mkPendingMatch (baseId + st.created.length) p1.user_id p2.user_id prob now] }
        | _, _ => { st with i := st.i + 1 }
    | none => { st with i := st.i + 1 }
  else st

/-- Runs `fuel` iterations of the tick loop from the initial state `(0, [])`. -/
def tickIter (players : List PlayerQueueEntry) (baseId : ℕ) (prob : Option ℕ)
    (now : ℤ) : ℕ → TickState
  | 0 => { i := 0, created := [] }
  | n + 1 => tickStep players baseId prob now (tickIter players baseId prob now n)

/-- The row written by the draw-timeout handlers on an ACTIVE match:
COMPLETED with `end_time = now`; `winner_id` is not touched. -/
def drawUpdate (m : MatchRow) (now : ℤ) : MatchRow :=
  { m with status := MatchStatus.COMPLETED, end_time := some now }

/-- The row written by the auto-decline paths (`check_match_timeouts` and
the 60-second branch of match/route.py `accept_match`): DECLINED with
`end_time = now`. -/
def declinedUpdate (m : MatchRow) (now : ℤ) : MatchRow :=
  { m with status := MatchStatus.DECLINED, end_time := some now }

/-! ## Invariants and fixtures -/

/-- Data-model invariant 5 for one row: `end_time` is set iff the status
is terminal. -/
def endTimeConsistent (m : MatchRow) : Bool :=
  m.status.isTerminal == m.end_time.isSome

/-- Data-model invariant 5 for a whole store. -/
def endTimeInvariant (s : DBState) : Bool :=
  s.matchRows.all endTimeConsistent

/-- Number of PENDING/ACTIVE matches involving a user. -/
def countOpenFor (ms : List MatchRow) (u : ℕ) : ℕ :=
  (ms.filter (fun m =>
    (decide (m.player1_id = u) || decide (m.player2_id = u)) &&
    (decide (m.status = MatchStatus.PENDING) ||
     decide (m.status = MatchStatus.ACTIVE)))).length

/-- Fixture: a PENDING match row (id 1) between users 1 and 2, neither
having accepted, created at time 0. -/
def pendingRow : MatchRow :=
  { id := 1, player1_id := 1, player2_id := 2, problem_id := some 7,
    status := MatchStatus.PENDING, player1_accepted := false,
    player2_accepted := false, winner_id := none, start_time := some 0,
    end_time := none }

/-- Fixture: `pendingRow` in a store where both users exist with ratings
1000 / 1200. -/
def pendingIn : DBState :=
  { matchRows := [pendingRow], ratings := [(1, 1000), (2, 1200)] }

/-- Fixture: an ACTIVE match row (id 1) between users 1 and 2. -/
def activeRow : MatchRow :=
  { id := 1, player1_id := 1, player2_id := 2, problem_id := some 7,
    status := MatchStatus.ACTIVE, player1_accepted := true,
    player2_accepted := true, winner_id := none, start_time := some 0,
    end_time := none }

/-- Fixture: `activeRow` in a store with users 1 (rating 1000) and 2
(rating 1200). -/
def drawIn : DBState :=
  { matchRows := [activeRow], ratings := [(1, 1000), (2, 1200)] }

/-- Fixture: a COMPLETED match row (id 1) already won by user 1. -/
def completedRow : MatchRow :=
  { id := 1, player1_id := 1, player2_id := 2, problem_id := some 7,
    status := MatchStatus.COMPLETED, player1_accepted := true,
    player2_accepted := true, winner_id := some 1, start_time := some 0,
    end_time := some 3 }

/-- Fixture: `completedRow` in a store with users 1 and 2. -/
def completedIn : DBState :=
  { matchRows := [completedRow], ratings := [(1, 1024), (2, 1176)] }

/-- Fixture: two queued players, enqueued at times 0 and 1. -/
def queuePair : List PlayerQueueEntry :=
  [{ user_id := 1, rating := 1000, timestamp := 0 },
   { user_id := 2, rating := 1200, timestamp := 1 }]

/-- Fixture: an empty Redis store. -/
def emptyRedis : RedisState := { zset := [], markers := [] }

/-! ## Facts about `pyRound` -/

theorem fract_eq_sub_floor (x : ℝ) : Int.fract x = x - ⌊x⌋ := rfl

theorem pyRound_of_lt_half (x : ℝ) (n : ℤ) (h1 : (n : ℝ) ≤ x)
    (h2 : x < (n : ℝ) + 1 / 2) : pyRound x = n := by
  have hfl : ⌊x⌋ = n := by
    rw [Int.floor_eq_iff]
    constructor
    · exact h1
    · linarith
  have hfr : Int.fract x < 1 / 2 := by
    rw [fract_eq_sub_floor, hfl]
    linarith
  unfold pyRound
  rw [if_pos hfr, hfl]

theorem pyRound_of_half_lt (x : ℝ) (n : ℤ) (h1 : (n : ℝ) + 1 / 2 < x)
    (h2 : x < (n : ℝ) + 1) : pyRound x = n + 1 := by
  have hfl : ⌊x⌋ = n := by
    rw [Int.floor_eq_iff]
    constructor
    · linarith
    · linarith
  have hfr : 1 / 2 < Int.fract x := by
    rw [fract_eq_sub_floor, hfl]
    linarith
  unfold pyRound
  rw [if_neg (by linarith), if_pos hfr, hfl]

theorem pyRound_intCast (n : ℤ) : pyRound ((n : ℤ) : ℝ) = n := by
  apply pyRound_of_lt_half
  · exact le_refl _
  · linarith

/-! ## Numeric facts about the concrete rating computations -/

theorem sqrt10_bounds : (3 : ℝ) < Real.sqrt 10 ∧ Real.sqrt 10 < 3.17 := by
  constructor
  · rw [show (3 : ℝ) = Real.sqrt 9 by
      rw [show (9 : ℝ) = 3 ^ 2 by norm_num, Real.sqrt_sq (by norm_num)]]
    exact Real.sqrt_lt_sqrt (by norm_num) (by norm_num)
  · rw [Real.sqrt_lt' (by norm_num)]
    norm_num

theorem ten_rpow_half : (10 : ℝ) ^ ((1 : ℝ) / 2) = Real.sqrt 10 :=
  (Real.sqrt_eq_rpow 10).symm

theorem expected_1000_1200 :
    calculate_expected_score 1000 1200 = 1 / (1 + Real.sqrt 10) := by
  unfold calculate_expected_score
  rw [show (((1200 : ℤ) : ℝ) - ((1000 : ℤ) : ℝ)) / 400 = (1 : ℝ) / 2 by
    push_cast; norm_num]
  rw [ten_rpow_half]

theorem expected_1200_1000 :
    calculate_expected_score 1200 1000 = Real.sqrt 10 / (1 + Real.sqrt 10) := by
  unfold calculate_expected_score
  rw [show (((1000 : ℤ) : ℝ) - ((1200 : ℤ) : ℝ)) / 400 = -((1 : ℝ) / 2) by
    push_cast; norm_num]
  rw [Real.rpow_neg (by norm_num), ten_rpow_half]
  have hs := sqrt10_bounds
  have hpos : (0 : ℝ) < Real.sqrt 10 := by linarith [hs.1]
  field_simp
  ring

theorem update_1000_1200 : update_ratings_after_match 1000 1200 = (1024, 1176) := by
  have hs := sqrt10_bounds
  have h0 : (0 : ℝ) < 1 + Real.sqrt 10 := by linarith [hs.1]
  have hinv : (1 + Real.sqrt 10) * (1 / (1 + Real.sqrt 10)) = 1 :=
    mul_one_div_cancel (ne_of_gt h0)
  have ht0 : 0 < 1 / (1 + Real.sqrt 10) := by positivity
  have hlo : (24 : ℝ) < 32 * (1 - 1 / (1 + Real.sqrt 10)) := by nlinarith [hs.1]
  have hhi : 32 * (1 - 1 / (1 + Real.sqrt 10)) < 24.5 := by nlinarith [hs.2]
  unfold update_ratings_after_match calculate_new_rating
  rw [expected_1000_1200, expected_1200_1000, Prod.mk.injEq]
  constructor
  · -- winner side
    rw [show ((1000 : ℤ) : ℝ) + ((K_FACTOR : ℤ) : ℝ) * (1 - 1 / (1 + Real.sqrt 10))
        = 1000 + 32 * (1 - 1 / (1 + Real.sqrt 10)) by norm_num [K_FACTOR]]
    apply pyRound_of_lt_half
    · push_cast
      linarith
    · push_cast
      linarith
  · -- loser side
    have hsub : Real.sqrt 10 / (1 + Real.sqrt 10) = 1 - 1 / (1 + Real.sqrt 10) := by
      field_simp
    rw [show ((1200 : ℤ) : ℝ) + ((K_FACTOR : ℤ) : ℝ)
          * (0 - Real.sqrt 10 / (1 + Real.sqrt 10))
        = 1200 - 32 * (Real.sqrt 10 / (1 + Real.sqrt 10)) by norm_num [K_FACTOR]; ring]
    rw [hsub]
    have hval : pyRound (1200 - 32 * (1 - 1 / (1 + Real.sqrt 10))) = 1175 + 1 := by
      apply pyRound_of_half_lt
      · push_cast
        linarith
      · push_cast
        linarith
    rw [hval]
    norm_num

theorem draw_1000_1200 : update_ratings_for_draw 1000 1200 = (1008, 1192) := by
  have hs := sqrt10_bounds
  have h0 : (0 : ℝ) < 1 + Real.sqrt 10 := by linarith [hs.1]
  have hinv : (1 + Real.sqrt 10) * (1 / (1 + Real.sqrt 10)) = 1 :=
    mul_one_div_cancel (ne_of_gt h0)
  have ht0 : 0 < 1 / (1 + Real.sqrt 10) := by positivity
  have hle : 32 * (1 / (1 + Real.sqrt 10)) < 8 := by nlinarith [hs.1]
  have hgt : (7.5 : ℝ) < 32 * (1 / (1 + Real.sqrt 10)) := by nlinarith [hs.2]
  unfold update_ratings_for_draw calculate_new_rating
  rw [expected_1000_1200, expected_1200_1000, Prod.mk.injEq]
  constructor
  · rw [show ((1000 : ℤ) : ℝ) + ((K_FACTOR : ℤ) : ℝ)
          * (1 / 2 - 1 / (1 + Real.sqrt 10))
        = 1016 - 32 * (1 / (1 + Real.sqrt 10)) by norm_num [K_FACTOR]; ring]
    apply pyRound_of_lt_half
    · push_cast
      linarith
    · push_cast
      linarith
  · have hsub : Real.sqrt 10 / (1 + Real.sqrt 10) = 1 - 1 / (1 + Real.sqrt 10) := by
      field_simp
    rw [show ((1200 : ℤ) : ℝ) + ((K_FACTOR : ℤ) : ℝ)
          * (1 / 2 - Real.sqrt 10 / (1 + Real.sqrt 10))
        = 1216 - 32 * (Real.sqrt 10 / (1 + Real.sqrt 10)) by norm_num [K_FACTOR]; ring]
    rw [hsub]
    have hval : pyRound (1216 - 32 * (1 - 1 / (1 + Real.sqrt 10))) = 1191 + 1 := by
      apply pyRound_of_half_lt
      · push_cast
        linarith
      · push_cast
        linarith
    rw [hval]
    norm_num

theorem expected_self (r : ℤ) : calculate_expected_score r r = 1 / 2 := by
  unfold calculate_expected_score
  rw [sub_self, zero_div, Real.rpow_zero]
  norm_num

theorem lossStep_eq (r : ℤ) : lossStep r = r - 16 := by
  unfold lossStep calculate_new_rating
  rw [expected_self]
  rw [show ((r : ℤ) : ℝ) + ((K_FACTOR : ℤ) : ℝ) * (0 - 1 / 2)
      = (((r - 16 : ℤ) : ℤ) : ℝ) by push_cast [K_FACTOR]; ring]
  exact pyRound_intCast _

theorem lossSeq_eq (n : ℕ) : lossSeq n = 1000 - 16 * n := by
  induction n with
  | zero => simp [lossSeq, DEFAULT_RATING]
  | succ k ih =>
      rw [lossSeq, lossStep_eq, ih]
      push_cast
      ring

/-! ## Claim C1 -/

/-- C1 counterexample: on the ratings of the claim's concrete scenario
(winner 1000, loser 1200), the code's rating update
`update_ratings_after_match` produces (1024, 1176); the loser's new
rating is 1176, not the 1192 asserted by the claim. -/
theorem elo_concrete_loser_is_1176 :
    update_ratings_after_match 1000 1200 = (1024, 1176) ∧ (1176 : ℤ) ≠ 1192 :=
  ⟨update_1000_1200, by norm_num⟩

/-- C1 (amended): completing a match with a winner updates ratings by the
Elo rule with K = 32 — the winner's new rating is
round(r_win + 32·(1 − E)) and the loser's round(r_lose + 32·(0 − E')),
with E and E' the respective expected scores; for ratings 1000 (winner)
and 1200 (loser) the new ratings are 1024 and 1176. -/
theorem elo_update_rule :
    (∀ w l : ℤ, update_ratings_after_match w l =
        (pyRound ((w : ℝ) + 32 * (1 - calculate_expected_score w l)),
         pyRound ((l : ℝ) + 32 * (0 - calculate_expected_score l w)))) ∧
    update_ratings_after_match 1000 1200 = (1024, 1176) := by
  constructor
  · intro w l
    unfold update_ratings_after_match calculate_new_rating
    norm_num [K_FACTOR]
  · exact update_1000_1200

/-! ## Claim C10 -/

/-- C10: the rating computation applies no lower bound — a loss returns
round(r − 32·E) in both rating modules, the persisted pair for a loss at
rating 0 is already negative, and 63 consecutive losses against
equal-rated opponents drive the rating from the default 1000 down to −8,
which is negative.  No clamping at 0 occurs anywhere in the computation. -/
theorem rating_no_lower_bound :
    (∀ (r : ℤ) (e : ℝ), calculate_new_rating r e 0 = pyRound ((r : ℝ) - 32 * e)) ∧
    (∀ (r : ℤ) (e : ℝ),
        RatingService.calculate_new_rating r e 0 = pyRound ((r : ℝ) - 32 * e)) ∧
    (update_ratings_after_match 0 0).2 = -16 ∧
    lossSeq 63 = -8 ∧ lossSeq 63 < 0 := by
  refine ⟨?_, ?_, ?_, ?_, ?_⟩
  · intro r e
    unfold calculate_new_rating
    norm_num [K_FACTOR]
    ring_nf
  · intro r e
    unfold RatingService.calculate_new_rating
    norm_num [K_FACTOR]
    ring_nf
  · show calculate_new_rating 0 (calculate_expected_score 0 0) 0 = -16
    rw [expected_self]
    unfold calculate_new_rating
    rw [show ((0 : ℤ) : ℝ) + ((K_FACTOR : ℤ) : ℝ) * (0 - 1 / 2)
        = (((-16 : ℤ) : ℤ) : ℝ) by push_cast [K_FACTOR]; ring]
    exact pyRound_intCast _
  · rw [lossSeq_eq]
    norm_num
  · rw [lossSeq_eq]
    norm_num

/-! ## List and store helper lemmas -/

theorem find?_map_pred {α : Type} (p : α → Bool) (f : α → α)
    (hp : ∀ a, p (f a) = p a) (l : List α) (a : α) (h : l.find? p = some a) :
    (l.map f).find? p = some (f a) := by
  induction l with
  | nil => simp at h
  | cons x xs ih =>
      rw [List.map_cons]
      by_cases hx : p x = true
      · rw [List.find?_cons_of_pos _ hx] at h
        injection h with h1
        subst h1
        exact List.find?_cons_of_pos _ (by rw [hp]; exact hx)
      · rw [List.find?_cons_of_neg _ hx] at h
        rw [List.find?_cons_of_neg _ (by rw [hp]; exact hx)]
        exact ih h

theorem getMatchById_setMatch (ms : List MatchRow) (mid : ℕ) (m m2 : MatchRow)
    (h : getMatchById ms mid = some m) (hid : m2.id = mid) :
    getMatchById (setMatch ms m2) mid = some m2 := by
  unfold getMatchById at h
  have hm := List.find?_some h
  have hmid : m.id = mid := by simpa using hm
  have hp : ∀ a : MatchRow,
      ((if a.id == m2.id then m2 else a).id == mid) = (a.id == mid) := by
    intro a
    by_cases ha : (a.id == m2.id) = true
    · rw [if_pos ha]
      have haid : a.id = m2.id := by simpa using ha
      rw [haid]
    · rw [if_neg ha]
  have key := find?_map_pred (fun x : MatchRow => x.id == mid)
      (fun a => if a.id == m2.id then m2 else a) hp ms m h
  have hfm : (if m.id == m2.id then m2 else m) = m2 := by
    rw [if_pos]
    rw [hmid, hid]
    simp
  unfold getMatchById setMatch
  rw [key]
  show some (if (m.id == m2.id) = true then m2 else m) = some m2
  rw [hfm]

theorem getMatchById_map (f : MatchRow → MatchRow) (hf : ∀ x, (f x).id = x.id)
    (ms : List MatchRow) (mid : ℕ) (m : MatchRow)
    (h : getMatchById ms mid = some m) :
    getMatchById (ms.map f) mid = some (f m) := by
  have hp : ∀ a : MatchRow, ((f a).id == mid) = (a.id == mid) := fun a => by rw [hf]
  unfold getMatchById at h ⊢
  exact find?_map_pred (fun x : MatchRow => x.id == mid) f hp ms m h

theorem all_map_of_imp {α : Type} (p : α → Bool) (f : α → α) (l : List α)
    (h : ∀ a ∈ l, p a = true → p (f a) = true) (hl : l.all p = true) :
    (l.map f).all p = true := by
  rw [List.all_eq_true] at hl ⊢
  intro b hb
  rcases List.mem_map.mp hb with ⟨a, ha, rfl⟩
  exact h a ha (hl a ha)

/-! ## Invariant helper lemmas -/

theorem endTimeConsistent_of_eq (m m' : MatchRow)
    (hst : m'.status = m.status) (he : m'.end_time = m.end_time)
    (h : endTimeConsistent m = true) : endTimeConsistent m' = true := by
  unfold endTimeConsistent at h ⊢
  rw [hst, he]
  exact h

theorem endTimeConsistent_terminal (m' : MatchRow) (t : ℤ)
    (hst : m'.status.isTerminal = true) (he : m'.end_time = some t) :
    endTimeConsistent m' = true := by
  unfold endTimeConsistent
  rw [hst, he]
  rfl

theorem endTimeConsistent_nonterminal (m' : MatchRow)
    (hst : m'.status.isTerminal = false) (he : m'.end_time = none) :
    endTimeConsistent m' = true := by
  unfold endTimeConsistent
  rw [hst, he]
  rfl

theorem end_none_of_nonterminal (m : MatchRow) (h : endTimeConsistent m = true)
    (hs : m.status.isTerminal = false) : m.end_time = none := by
  unfold endTimeConsistent at h
  rw [hs] at h
  cases he : m.end_time with
  | none => rfl
  | some t => rw [he] at h; simp at h

theorem all_endTime_setMatch (ms : List MatchRow) (m2 : MatchRow)
    (h : ms.all endTimeConsistent = true) (h2 : endTimeConsistent m2 = true) :
    (setMatch ms m2).all endTimeConsistent = true := by
  unfold setMatch
  apply all_map_of_imp _ _ _ _ h
  intro a _ hpa
  by_cases hA : (a.id == m2.id) = true
  · rw [if_pos hA]
    exact h2
  · rw [if_neg hA]
    exact hpa

theorem consistent_of_inv (s : DBState) (m : MatchRow)
    (h : endTimeInvariant s = true) (hm : m ∈ s.matchRows) :
    endTimeConsistent m = true := by
  unfold endTimeInvariant at h
  rw [List.all_eq_true] at h
  exact h m hm

/-! ## Preservation of the end-time invariant, operation by operation -/

theorem endTimeInv_acc_timeout (s : DBState) (mid : ℕ) (now : ℤ)
    (h : endTimeInvariant s = true) :
    endTimeInvariant (match_acceptance_timeout s mid now) = true := by
  unfold match_acceptance_timeout
  split
  · split
    · show (setMatch s.matchRows _).all endTimeConsistent = true
      exact all_endTime_setMatch _ _ h (endTimeConsistent_terminal _ now rfl rfl)
    · exact h
  · exact h

theorem endTimeInv_draw_timeout (s : DBState) (mid : ℕ) (now : ℤ)
    (h : endTimeInvariant s = true) :
    endTimeInvariant (match_draw_timeout s mid now) = true := by
  unfold match_draw_timeout
  split
  · split
    · show (setMatch s.matchRows _).all endTimeConsistent = true
      exact all_endTime_setMatch _ _ h (endTimeConsistent_terminal _ now rfl rfl)
    · exact h
  · exact h

theorem endTimeInv_svc_acc_timeout (s : DBState) (mid : ℕ) (now : ℤ)
    (h : endTimeInvariant s = true) :
    endTimeInvariant (MatchService.match_acceptance_timeout s mid now) = true := by
  unfold MatchService.match_acceptance_timeout
  split
  · split
    · show (setMatch s.matchRows _).all endTimeConsistent = true
      exact all_endTime_setMatch _ _ h (endTimeConsistent_terminal _ now rfl rfl)
    · exact h
  · exact h

theorem endTimeInv_svc_draw_timeout (s : DBState) (mid : ℕ) (now : ℤ)
    (h : endTimeInvariant s = true) :
    endTimeInvariant (MatchService.match_draw_timeout s mid now) = true := by
  unfold MatchService.match_draw_timeout
  split
  · split
    · show (setMatch s.matchRows _).all endTimeConsistent = true
      exact all_endTime_setMatch _ _ h (endTimeConsistent_terminal _ now rfl rfl)
    · exact h
  · exact h

theorem endTimeInv_cancel_expired (s : DBState) (now : ℤ)
    (h : endTimeInvariant s = true) :
    endTimeInvariant (MatchService.cancel_expired_matches s now) = true := by
  unfold MatchService.cancel_expired_matches
  show (s.matchRows.map _).all endTimeConsistent = true
  apply all_map_of_imp _ _ _ _ h
  intro a _ hpa
  by_cases hc : a.status = MatchStatus.PENDING ∧ startedBefore a (now - 300) = true
  · rw [if_pos hc]
    exact endTimeConsistent_terminal _ now rfl rfl
  · rw [if_neg hc]
    exact hpa

theorem endTimeInv_check_timeouts (s : DBState) (now : ℤ)
    (h : endTimeInvariant s = true) :
    endTimeInvariant (check_match_timeouts s now) = true := by
  unfold check_match_timeouts
  show (s.matchRows.map _).all endTimeConsistent = true
  apply all_map_of_imp _ _ _ _ h
  intro a _ hpa
  by_cases hc : a.status = MatchStatus.PENDING ∧
      startedBefore a (now - MATCH_ACCEPTANCE_TIMEOUT) = true
  · rw [if_pos hc]
    exact endTimeConsistent_terminal _ now rfl rfl
  · rw [if_neg hc]
    exact hpa

theorem endTimeInv_finish_winner (s : DBState) (mid winner : ℕ) (now : ℤ)
    (h : endTimeInvariant s = true) :
    endTimeInvariant (finish_match_with_winner s mid winner now) = true := by
  unfold finish_match_with_winner
  show (s.matchRows.map _).all endTimeConsistent = true
  apply all_map_of_imp _ _ _ _ h
  intro a _ hpa
  by_cases hc : (a.id == mid) = true
  · rw [if_pos hc]
    exact endTimeConsistent_terminal _ now rfl rfl
  · rw [if_neg hc]
    exact hpa

theorem endTimeConsistent_acceptUpdate (m : MatchRow) (uid : ℕ) (now : ℤ)
    (hm : endTimeConsistent m = true) (hpend : m.status = MatchStatus.PENDING) :
    endTimeConsistent (acceptUpdate m uid now) = true := by
  have hend : m.end_time = none :=
    end_none_of_nonterminal m hm (by rw [hpend]; rfl)
  simp only [acceptUpdate]
  split
  · split
    · exact endTimeConsistent_nonterminal _ rfl hend
    · exact endTimeConsistent_nonterminal _
        (by show m.status.isTerminal = false; rw [hpend]; rfl) hend
  · split
    · exact endTimeConsistent_nonterminal _ rfl hend
    · exact endTimeConsistent_nonterminal _
        (by show m.status.isTerminal = false; rw [hpend]; rfl) hend

theorem endTimeInv_accept (s : DBState) (mid uid : ℕ) (now : ℤ)
    (h : endTimeInvariant s = true) :
    endTimeInvariant (accept_match s mid uid now).1 = true := by
  unfold accept_match
  split
  · exact h
  · split
    · exact h
    · rename_i m heq
      split
      · exact h
      · split
        · exact h
        · rename_i hpart hst
          have hmem : m ∈ s.matchRows := List.mem_of_find?_eq_some heq
          have hmcons : endTimeConsistent m = true := consistent_of_inv s m h hmem
          have hpend : m.status = MatchStatus.PENDING := by
            by_contra hx
            exact hst hx
          show (setMatch s.matchRows _).all endTimeConsistent = true
          exact all_endTime_setMatch _ _ h
            (endTimeConsistent_acceptUpdate m uid now hmcons hpend)

theorem endTimeInv_decline (s : DBState) (mid uid : ℕ) (now : ℤ)
    (h : endTimeInvariant s = true) :
    endTimeInvariant (decline_match s mid uid now).1 = true := by
  unfold decline_match
  split
  · exact h
  · split
    · exact h
    · split
      · exact h
      · split
        · exact h
        · show (setMatch s.matchRows _).all endTimeConsistent = true
          exact all_endTime_setMatch _ _ h (endTimeConsistent_terminal _ now rfl rfl)

theorem endTimeInv_accept_service (s : DBState) (mid uid : ℕ)
    (h : endTimeInvariant s = true) :
    endTimeInvariant (MatchService.accept_match_service s mid uid).1 = true := by
  unfold MatchService.accept_match_service
  split
  · exact h
  · rename_i m heq
    split
    · exact h
    · split
      · exact h
      · rename_i hst hpart
        have hmem : m ∈ s.matchRows := List.mem_of_find?_eq_some heq
        have hmcons : endTimeConsistent m = true := consistent_of_inv s m h hmem
        have hpend : m.status = MatchStatus.PENDING := by
          by_contra hx
          exact hst hx
        have hend : m.end_time = none :=
          end_none_of_nonterminal m hmcons (by rw [hpend]; rfl)
        show (setMatch s.matchRows _).all endTimeConsistent = true
        exact all_endTime_setMatch _ _ h (endTimeConsistent_nonterminal _ rfl hend)

theorem endTimeInv_decline_service (s : DBState) (mid uid : ℕ) (now : ℤ)
    (h : endTimeInvariant s = true) :
    endTimeInvariant (MatchService.decline_match_service s mid uid now).1 = true := by
  unfold MatchService.decline_match_service
  split
  · exact h
  · split
    · exact h
    · split
      · exact h
      · show (setMatch s.matchRows _).all endTimeConsistent = true
        exact all_endTime_setMatch _ _ h (endTimeConsistent_terminal _ now rfl rfl)

theorem endTimeConsistent_mkPending (newId p1 p2 : ℕ) (prob : Option ℕ) (now : ℤ) :
    endTimeConsistent (mkPendingMatch newId p1 p2 prob now) = true := rfl

theorem endTimeInv_find_match (ms : List MatchRow) (queue : List PlayerQueueEntry)
    (u : ℕ) (r : ℤ) (newId : ℕ) (prob : Option ℕ) (now : ℤ)
    (h : ms.all endTimeConsistent = true) :
    (find_match_for_player ms queue u r newId prob now).1.all endTimeConsistent
      = true := by
  unfold find_match_for_player
  split
  · exact h
  · split
    · exact h
    · split
      · exact h
      · show (ms ++ [mkPendingMatch newId u _ prob now]).all endTimeConsistent = true
        rw [List.all_append]
        simp [h]
        rfl

theorem endTimeInv_submit (s : DBState) (mid uid : ℕ) (c : Bool) (now : ℤ)
    (h : endTimeInvariant s = true) :
    endTimeInvariant (Route.submit_solution s mid uid c now).1 = true := by
  unfold Route.submit_solution
  split
  · exact h
  · rename_i m heq
    split
    · exact h
    · split
      · exact h
      · split
        · have hall : (setMatch s.matchRows (Route.completedUpdate m uid now)).all
              endTimeConsistent = true :=
            all_endTime_setMatch _ _ h (endTimeConsistent_terminal _ now rfl rfl)
          exact hall
        · exact h

/-! ## Claim C6 -/

/-- C6 counterexample: the legacy accept handler (match/route.py
`accept_match`) has no PENDING guard; calling it on an already-COMPLETED
match (both flags true, within the 60-second window) sets the match back
to ACTIVE while its `end_time` stays set, so after this transition
`end_time` is set on a non-terminal match — the claimed biconditional
fails. -/
theorem route_accept_breaks_end_time_invariant :
    endTimeInvariant completedIn = true ∧
    endTimeInvariant (Route.accept_match completedIn 1 1 50).1 = false := by
  exact ⟨rfl, rfl⟩

/-- C6 (amended): every embedded transition writes `end_time` exactly when
it writes a terminal status, and the invariant "end_time set iff status
terminal" is preserved by the creation of a PENDING match and by every
operation and timer — with the single exception of the legacy
match/route.py accept handler, which lacks a state guard and can return a
COMPLETED match to ACTIVE with its old `end_time` still set. -/
theorem end_time_iff_terminal_preserved :
    (∀ s mid now, endTimeInvariant s = true →
        endTimeInvariant (match_acceptance_timeout s mid now) = true) ∧
    (∀ s mid now, endTimeInvariant s = true →
        endTimeInvariant (match_draw_timeout s mid now) = true) ∧
    (∀ s mid now, endTimeInvariant s = true →
        endTimeInvariant (MatchService.match_acceptance_timeout s mid now) = true) ∧
    (∀ s mid now, endTimeInvariant s = true →
        endTimeInvariant (MatchService.match_draw_timeout s mid now) = true) ∧
    (∀ s now, endTimeInvariant s = true →
        endTimeInvariant (MatchService.cancel_expired_matches s now) = true) ∧
    (∀ s now, endTimeInvariant s = true →
        endTimeInvariant (check_match_timeouts s now) = true) ∧
    (∀ s mid w now, endTimeInvariant s = true →
        endTimeInvariant (finish_match_with_winner s mid w now) = true) ∧
    (∀ s mid uid now, endTimeInvariant s = true →
        endTimeInvariant (accept_match s mid uid now).1 = true) ∧
    (∀ s mid uid now, endTimeInvariant s = true →
        endTimeInvariant (decline_match s mid uid now).1 = true) ∧
    (∀ s mid uid, endTimeInvariant s = true →
        endTimeInvariant (MatchService.accept_match_service s mid uid).1 = true) ∧
    (∀ s mid uid now, endTimeInvariant s = true →
        endTimeInvariant (MatchService.decline_match_service s mid uid now).1
          = true) ∧
    (∀ s mid uid c now, endTimeInvariant s = true →
        endTimeInvariant (Route.submit_solution s mid uid c now).1 = true) ∧
    (∀ ms queue u r newId prob now, ms.all endTimeConsistent = true →
        (find_match_for_player ms queue u r newId prob now).1.all
          endTimeConsistent = true) ∧
    (∀ newId p1 p2 prob now,
        endTimeConsistent (mkPendingMatch newId p1 p2 prob now) = true) :=
  ⟨endTimeInv_acc_timeout, endTimeInv_draw_timeout, endTimeInv_svc_acc_timeout,
   endTimeInv_svc_draw_timeout, endTimeInv_cancel_expired,
   endTimeInv_check_timeouts, endTimeInv_finish_winner, endTimeInv_accept,
   endTimeInv_decline, endTimeInv_accept_service, endTimeInv_decline_service,
   endTimeInv_submit, endTimeInv_find_match, endTimeConsistent_mkPending⟩

/-- C6 witness: the preservation theorem applied to the acceptance timeout
on a concrete PENDING store. -/
theorem end_time_iff_terminal_preserved_witness :
    endTimeInvariant pendingIn = true ∧
    endTimeInvariant (match_acceptance_timeout pendingIn 1 9) = true :=
  ⟨rfl, end_time_iff_terminal_preserved.1 pendingIn 1 9 rfl⟩

/-! ## Claim C2 -/

theorem acceptUpdate_id (m : MatchRow) (uid : ℕ) (now : ℤ) :
    (acceptUpdate m uid now).id = m.id := by
  simp only [acceptUpdate]
  split
  · split
    · rfl
    · rfl
  · split
    · rfl
    · rfl

theorem acceptUpdate_flags1 (m : MatchRow) (uid : ℕ) (now : ℤ)
    (h : m.player1_id = uid) :
    (acceptUpdate m uid now).player1_accepted = true ∧
    (acceptUpdate m uid now).player2_accepted = m.player2_accepted := by
  simp only [acceptUpdate, if_pos h]
  split
  · exact ⟨rfl, rfl⟩
  · exact ⟨rfl, rfl⟩

theorem acceptUpdate_flags2 (m : MatchRow) (uid : ℕ) (now : ℤ)
    (h : ¬ m.player1_id = uid) :
    (acceptUpdate m uid now).player2_accepted = true ∧
    (acceptUpdate m uid now).player1_accepted = m.player1_accepted := by
  simp only [acceptUpdate, if_neg h]
  split
  · exact ⟨rfl, rfl⟩
  · exact ⟨rfl, rfl⟩

theorem acceptUpdate_status (m : MatchRow) (uid : ℕ) (now : ℤ)
    (hpend : m.status = MatchStatus.PENDING) :
    ((acceptUpdate m uid now).status = MatchStatus.ACTIVE ↔
        ((acceptUpdate m uid now).player1_accepted = true ∧
         (acceptUpdate m uid now).player2_accepted = true)) ∧
    (¬ ((acceptUpdate m uid now).player1_accepted = true ∧
        (acceptUpdate m uid now).player2_accepted = true) →
      (acceptUpdate m uid now).status = MatchStatus.PENDING) := by
  simp only [acceptUpdate]
  split
  · split
    · rename_i hboth
      constructor
      · exact iff_of_true rfl hboth
      · intro hc
        exact absurd hboth hc
    · rename_i hboth
      constructor
      · refine iff_of_false ?_ hboth
        show m.status ≠ MatchStatus.ACTIVE
        rw [hpend]
        exact fun hx => MatchStatus.noConfusion hx
      · intro _
        exact hpend
  · split
    · rename_i hboth
      constructor
      · exact iff_of_true rfl hboth
      · intro hc
        exact absurd hboth hc
    · rename_i hboth
      constructor
      · refine iff_of_false ?_ hboth
        show m.status ≠ MatchStatus.ACTIVE
        rw [hpend]
        exact fun hx => MatchStatus.noConfusion hx
      · intro _
        exact hpend

/-- C2 counterexample: `MatchService.accept_match_service` on a PENDING
match with neither side accepted, called once by participant 1, succeeds
and sets the status directly to ACTIVE without touching either acceptance
flag — the claim says a single accept leaves the match PENDING with only
that participant's flag set. -/
theorem single_accept_service_activates :
    pendingRow.player1_accepted = false ∧ pendingRow.player2_accepted = false ∧
    (MatchService.accept_match_service pendingIn 1 1).2 = none ∧
    (getMatchById (MatchService.accept_match_service pendingIn 1 1).1.matchRows 1).map
        MatchRow.status = some MatchStatus.ACTIVE ∧
    (getMatchById (MatchService.accept_match_service pendingIn 1 1).1.matchRows 1).map
        MatchRow.player1_accepted = some false := by
  exact ⟨rfl, rfl, rfl, rfl, rfl⟩

/-- C2 (amended): the mounted accept endpoint
(presentation/routes/match.py `accept_match`) behaves as the claim states:
for a PENDING match and a participant caller it succeeds, stores
`acceptUpdate m uid now`, which sets only the caller's acceptance flag,
is ACTIVE exactly when both flags are true, and stays PENDING otherwise.
The unused `MatchService.accept_match_service`, however, activates the
match on any single accept. -/
theorem accept_route_flag_semantics (s : DBState) (mid uid : ℕ) (now : ℤ)
    (m : MatchRow) (hfind : getMatchById s.matchRows mid = some m)
    (hpend : m.status = MatchStatus.PENDING)
    (hpart : m.player1_id = uid ∨ m.player2_id = uid)
    (huser : userExists s.ratings uid = true) :
    (accept_match s mid uid now).2 = none ∧
    getMatchById (accept_match s mid uid now).1.matchRows mid
      = some (acceptUpdate m uid now) ∧
    (m.player1_id = uid →
        (acceptUpdate m uid now).player1_accepted = true ∧
        (acceptUpdate m uid now).player2_accepted = m.player2_accepted) ∧
    (¬ m.player1_id = uid →
        (acceptUpdate m uid now).player2_accepted = true ∧
        (acceptUpdate m uid now).player1_accepted = m.player1_accepted) ∧
    ((acceptUpdate m uid now).status = MatchStatus.ACTIVE ↔
        ((acceptUpdate m uid now).player1_accepted = true ∧
         (acceptUpdate m uid now).player2_accepted = true)) ∧
    (¬ ((acceptUpdate m uid now).player1_accepted = true ∧
        (acceptUpdate m uid now).player2_accepted = true) →
      (acceptUpdate m uid now).status = MatchStatus.PENDING) := by
  have hmid : m.id = mid := by
    have h' := hfind
    unfold getMatchById at h'
    simpa using List.find?_some h'
  have hnp : ¬ (m.player1_id ≠ uid ∧ m.player2_id ≠ uid) := by
    intro hc
    cases hpart with
    | inl h1 => exact hc.1 h1
    | inr h2 => exact hc.2 h2
  have hstep : accept_match s mid uid now
      = ({ s with matchRows := setMatch s.matchRows (acceptUpdate m uid now) }, none) := by
    unfold accept_match
    rw [if_neg (by simp [huser])]
    simp only [hfind]
    rw [if_neg hnp, if_neg (by simp [hpend])]
  refine ⟨by rw [hstep], ?_, acceptUpdate_flags1 m uid now,
      acceptUpdate_flags2 m uid now, (acceptUpdate_status m uid now hpend).1,
      (acceptUpdate_status m uid now hpend).2⟩
  rw [hstep]
  exact getMatchById_setMatch s.matchRows mid m (acceptUpdate m uid now) hfind
    (by rw [acceptUpdate_id, hmid])

/-- C2 witness: the accept-route theorem applied to the concrete PENDING
fixture, where user 1 accepts alone and the match stays PENDING. -/
theorem accept_route_flag_semantics_witness :
    (accept_match pendingIn 1 1 5).2 = none ∧
    getMatchById (accept_match pendingIn 1 1 5).1.matchRows 1
      = some (acceptUpdate pendingRow 1 5) ∧
    (acceptUpdate pendingRow 1 5).status = MatchStatus.PENDING := by
  have h := accept_route_flag_semantics pendingIn 1 1 5 pendingRow rfl rfl
    (Or.inl rfl) rfl
  exact ⟨h.1, h.2.1, h.2.2.2.2.2 (by decide)⟩

/-! ## Claim C3 -/

theorem draw_timeout_ratings (s : DBState) (mid : ℕ) (now : ℤ) :
    (match_draw_timeout s mid now).ratings = s.ratings := by
  unfold match_draw_timeout
  split
  · split
    · rfl
    · rfl
  · rfl

/-- C3 counterexample: firing the draw timer on an ACTIVE match between
players rated 1000 and 1200 transitions it to COMPLETED but leaves both
persisted ratings unchanged at (1000, 1200), whereas the S = 0.5 update
the claim asserts (the code's own `update_ratings_for_draw`) would give
(1008, 1192): no rating update happens on the draw path. -/
theorem draw_timer_skips_rating_update :
    (match_draw_timeout drawIn 1 9).ratings = [(1, 1000), (2, 1200)] ∧
    (getMatchById (match_draw_timeout drawIn 1 9).matchRows 1).map MatchRow.status
      = some MatchStatus.COMPLETED ∧
    update_ratings_for_draw 1000 1200 = (1008, 1192) ∧ (1008 : ℤ) ≠ 1000 := by
  exact ⟨rfl, rfl, draw_1000_1200, by norm_num⟩

/-- C3 (amended): the draw timer transitions an ACTIVE match to COMPLETED
with `end_time = now`, leaving `winner_id` (null) untouched, and is a
no-op when the match is no longer ACTIVE; it does not update either
player's persisted rating (the business-layer handler is identical). -/
theorem draw_timeout_transition (s : DBState) (mid : ℕ) (now : ℤ) (m : MatchRow)
    (hfind : getMatchById s.matchRows mid = some m) :
    (match_draw_timeout s mid now).ratings = s.ratings ∧
    MatchService.match_draw_timeout s mid now = match_draw_timeout s mid now ∧
    (m.status = MatchStatus.ACTIVE →
        getMatchById (match_draw_timeout s mid now).matchRows mid
          = some (drawUpdate m now) ∧
        (drawUpdate m now).winner_id = m.winner_id) ∧
    (¬ m.status = MatchStatus.ACTIVE → match_draw_timeout s mid now = s) := by
  refine ⟨draw_timeout_ratings s mid now, rfl, ?_, ?_⟩
  · intro hact
    have hstep : match_draw_timeout s mid now
        = { s with matchRows := setMatch s.matchRows (drawUpdate m now) } := by
      unfold match_draw_timeout
      simp only [hfind]
      rw [if_pos hact]
      rfl
    refine ⟨?_, rfl⟩
    rw [hstep]
    have hmid : m.id = mid := by
      have h' := hfind
      unfold getMatchById at h'
      simpa using List.find?_some h'
    exact getMatchById_setMatch s.matchRows mid m (drawUpdate m now) hfind hmid
  · intro hnact
    unfold match_draw_timeout
    simp only [hfind]
    rw [if_neg hnact]

/-- C3 witness: the amended draw-timeout theorem applied to the concrete
ACTIVE fixture. -/
theorem draw_timeout_transition_witness :
    (match_draw_timeout drawIn 1 9).ratings = drawIn.ratings ∧
    getMatchById (match_draw_timeout drawIn 1 9).matchRows 1
      = some (drawUpdate activeRow 9) := by
  have h := draw_timeout_transition drawIn 1 9 activeRow rfl
  exact ⟨h.1, (h.2.2.1 rfl).1⟩

/-! ## Claim C7 -/

/-- C7 counterexample: the acceptance-timeout constant in match/service.py
is 15 seconds, not 30, and `check_match_timeouts` auto-declines a PENDING
match that is only 20 seconds old — still inside the claimed 30-second
acceptance window. -/
theorem acceptance_window_not_thirty :
    MATCH_ACCEPTANCE_TIMEOUT = 15 ∧ MATCH_ACCEPTANCE_TIMEOUT ≠ 30 ∧
    pendingRow.start_time = some 0 ∧ (20 : ℤ) < 0 + 30 ∧
    (getMatchById (check_match_timeouts pendingIn 20).matchRows 1).map
        MatchRow.status = some MatchStatus.DECLINED := by
  exact ⟨rfl, by decide, rfl, by decide, rfl⟩

/-- C7 (amended): the acceptance-window constants are 15 seconds
(`MATCH_ACCEPTANCE_TIMEOUT`, used by the queue sweep
`check_match_timeouts`, which declines exactly the PENDING matches whose
`start_time` is more than 15 seconds in the past) and 60 seconds (the
accept route of match/route.py auto-declines a match whose `start_time`
is more than 60 seconds in the past and rejects the accept); no
30-second acceptance constant exists. -/
theorem acceptance_timeout_semantics (s : DBState) (now : ℤ) (mid uid : ℕ)
    (m : MatchRow) (st : ℤ) (hfind : getMatchById s.matchRows mid = some m)
    (hst : m.start_time = some st) :
    MATCH_ACCEPTANCE_TIMEOUT = 15 ∧
    (m.status = MatchStatus.PENDING → st < now - MATCH_ACCEPTANCE_TIMEOUT →
        getMatchById (check_match_timeouts s now).matchRows mid
          = some (declinedUpdate m now)) ∧
    (¬ st < now - MATCH_ACCEPTANCE_TIMEOUT →
        getMatchById (check_match_timeouts s now).matchRows mid = some m) ∧
    ((m.player1_id = uid ∨ m.player2_id = uid) → st + 60 < now →
        (Route.accept_match s mid uid now).2 = some Err.badRequest ∧
        getMatchById (Route.accept_match s mid uid now).1.matchRows mid
          = some (declinedUpdate m now)) := by
  have hmid : m.id = mid := by
    have h' := hfind
    unfold getMatchById at h'
    simpa using List.find?_some h'
  have hmap := getMatchById_map
      (fun x => if x.status = MatchStatus.PENDING ∧
          startedBefore x (now - MATCH_ACCEPTANCE_TIMEOUT) = true
        then { x with status := MatchStatus.DECLINED, end_time := some now }
        else x)
      (fun x => by beta_reduce; split <;> rfl) s.matchRows mid m hfind
  have hmap2 : getMatchById (check_match_timeouts s now).matchRows mid
      = some (if m.status = MatchStatus.PENDING ∧
            startedBefore m (now - MATCH_ACCEPTANCE_TIMEOUT) = true
          then { m with status := MatchStatus.DECLINED, end_time := some now }
          else m) := hmap
  refine ⟨rfl, ?_, ?_, ?_⟩
  · intro hpendm hold
    have hcond : m.status = MatchStatus.PENDING ∧
        startedBefore m (now - MATCH_ACCEPTANCE_TIMEOUT) = true := by
      refine ⟨hpendm, ?_⟩
      unfold startedBefore
      rw [hst]
      simpa using hold
    rw [hmap2, if_pos hcond]
    rfl
  · intro hnold
    have hcond : ¬ (m.status = MatchStatus.PENDING ∧
        startedBefore m (now - MATCH_ACCEPTANCE_TIMEOUT) = true) := by
      intro hc
      apply hnold
      have hb := hc.2
      unfold startedBefore at hb
      rw [hst] at hb
      simpa using hb
    rw [hmap2, if_neg hcond]
  · intro hpart h60
    have hnp : ¬ (m.player1_id ≠ uid ∧ m.player2_id ≠ uid) := by
      intro hc
      cases hpart with
      | inl h1 => exact hc.1 h1
      | inr h2 => exact hc.2 h2
    have hstep : Route.accept_match s mid uid now
        = ({ s with matchRows := setMatch s.matchRows (declinedUpdate m now) },
           some Err.badRequest) := by
      unfold Route.accept_match
      simp only [hfind]
      rw [if_neg hnp, if_pos (show (match m.start_time with
          | some st2 => decide (st2 + 60 < now)
          | none => false) = true by rw [hst]; simpa using h60)]
      rfl
    constructor
    · rw [hstep]
    · rw [hstep]
      exact getMatchById_setMatch s.matchRows mid m (declinedUpdate m now) hfind hmid

/-- C7 witness: the timeout-semantics theorem applied to the concrete
PENDING fixture at time 20 (queue sweep) and to its accept route at time
70 (60-second branch). -/
theorem acceptance_timeout_semantics_witness :
    getMatchById (check_match_timeouts pendingIn 20).matchRows 1
      = some (declinedUpdate pendingRow 20) ∧
    (Route.accept_match pendingIn 1 1 70).2 = some Err.badRequest := by
  have h20 := acceptance_timeout_semantics pendingIn 20 1 1 pendingRow 0 rfl rfl
  have h70 := acceptance_timeout_semantics pendingIn 70 1 1 pendingRow 0 rfl rfl
  exact ⟨h20.2.1 rfl (by decide), (h70.2.2.2 (Or.inl rfl) (by decide)).1⟩

/-! ## Claim C8 -/

/-- C8 counterexample: submitting a correct verdict by participant 1 on a
match that is already COMPLETED (with winner 1 recorded) is rejected with
a bad-request error — it is not a success returning the existing winner. -/
theorem verdict_on_completed_is_error :
    Route.submit_solution completedIn 1 1 true 9
      = (completedIn, some Err.badRequest) ∧
    completedRow.winner_id = some 1 := by
  exact ⟨rfl, rfl⟩

/-- C8 (amended): submitting any verdict on an already-COMPLETED match by
a participant raises a bad-request ("match must be ACTIVE") error and
leaves the store — the match row, its winner_id, and both ratings —
unchanged. -/
theorem verdict_after_completed_rejected (s : DBState) (mid uid : ℕ) (c : Bool)
    (now : ℤ) (m : MatchRow) (hfind : getMatchById s.matchRows mid = some m)
    (hpart : m.player1_id = uid ∨ m.player2_id = uid)
    (hdone : m.status = MatchStatus.COMPLETED) :
    Route.submit_solution s mid uid c now = (s, some Err.badRequest) := by
  have hnp : ¬ (m.player1_id ≠ uid ∧ m.player2_id ≠ uid) := by
    intro hc
    cases hpart with
    | inl h1 => exact hc.1 h1
    | inr h2 => exact hc.2 h2
  unfold Route.submit_solution
  simp only [hfind]
  rw [if_neg hnp, if_pos (by rw [hdone]; exact fun hx => MatchStatus.noConfusion hx)]

/-- C8 witness: the rejected-verdict theorem applied to the concrete
COMPLETED fixture, for the other participant and an incorrect verdict. -/
theorem verdict_after_completed_rejected_witness :
    Route.submit_solution completedIn 1 2 false 11
      = (completedIn, some Err.badRequest) :=
  verdict_after_completed_rejected completedIn 1 2 false 11 completedRow rfl
    (Or.inr rfl) rfl

/-! ## Claim C9 -/

theorem removeFirstEntry_append_self (l : List PlayerQueueEntry)
    (e : PlayerQueueEntry) (uid : ℕ) (hz : ∀ x ∈ l, x.user_id ≠ uid)
    (he : e.user_id = uid) : removeFirstEntry (l ++ [e]) uid = l := by
  induction l with
  | nil => simp [removeFirstEntry, he]
  | cons a as ih =>
      have ha : a.user_id ≠ uid := hz a (List.mem_cons_self a as)
      rw [List.cons_append]
      show (if a.user_id = uid then as ++ [e]
            else a :: removeFirstEntry (as ++ [e]) uid) = a :: as
      rw [if_neg ha, ih (fun x hx => hz x (List.mem_cons_of_mem a hx))]

theorem filter_ne_of_not_mem (l : List ℕ) (uid : ℕ) (h : uid ∉ l) :
    l.filter (fun x => x ≠ uid) = l := by
  rw [List.filter_eq_self]
  intro a ha
  simp only [decide_eq_true_eq]
  intro heq
  exact h (heq ▸ ha)

/-- C9: for a user with no queue marker and no sorted-set entry, enqueue
succeeds, a following cancel succeeds and restores the store exactly (the
sorted-set entry and the `queue:user:<id>` marker are created and removed
together), and a subsequent enqueue is accepted again. -/
theorem enqueue_cancel_roundtrip (s : RedisState) (uid : ℕ) (r now r2 now2 : ℤ)
    (hm : s.markers.contains uid = false)
    (hz : ∀ e ∈ s.zset, e.user_id ≠ uid) :
    (MatchService.add_player_to_queue s uid r now).1 = true ∧
    (MatchService.remove_player_from_queue
        (MatchService.add_player_to_queue s uid r now).2 uid).1 = true ∧
    (MatchService.remove_player_from_queue
        (MatchService.add_player_to_queue s uid r now).2 uid).2 = s ∧
    (MatchService.add_player_to_queue
        (MatchService.remove_player_from_queue
            (MatchService.add_player_to_queue s uid r now).2 uid).2 uid r2 now2).1
      = true := by
  have hnotmem : uid ∉ s.markers := by
    intro hmem
    have hc : s.markers.contains uid = true := List.elem_iff.mpr hmem
    rw [hc] at hm
    cases hm
  have hm' : ¬ s.markers.contains uid = true := by simpa using hnotmem
  have hadd : MatchService.add_player_to_queue s uid r now
      = (true, { zset := s.zset ++ [{ user_id := uid, rating := r, timestamp := now }],
                 markers := uid :: s.markers }) := by
    unfold MatchService.add_player_to_queue
    rw [if_neg hm']
  have hcontains2 : ((uid :: s.markers).contains uid) = true := by simp
  have hrem : MatchService.remove_player_from_queue
      (MatchService.add_player_to_queue s uid r now).2 uid = (true, s) := by
    rw [hadd]
    unfold MatchService.remove_player_from_queue
    rw [if_neg (by simp [hcontains2])]
    rw [removeFirstEntry_append_self s.zset _ uid hz rfl]
    rw [List.filter_cons]
    rw [if_neg (by simp)]
    rw [filter_ne_of_not_mem s.markers uid hnotmem]
  refine ⟨by rw [hadd], by rw [hrem], by rw [hrem], ?_⟩
  rw [hrem]
  unfold MatchService.add_player_to_queue
  rw [if_neg hm']

/-- C9 witness: the round-trip theorem applied to the empty Redis store
and user 1. -/
theorem enqueue_cancel_roundtrip_witness :
    (MatchService.add_player_to_queue emptyRedis 1 1000 0).1 = true ∧
    (MatchService.remove_player_from_queue
        (MatchService.add_player_to_queue emptyRedis 1 1000 0).2 1).2 = emptyRedis := by
  have h := enqueue_cancel_roundtrip emptyRedis 1 1000 0 1000 7 rfl
    (fun e he => absurd he (List.not_mem_nil e))
  exact ⟨h.1, h.2.2.1⟩

/-! ## Claim C4 -/

/-- C4 counterexample: a single business-layer tick
(`MatchService.process_match_queue`, modelled by `tickIter`) on a queue of
two players starting from an empty match table creates, within two loop
iterations, two PENDING matches that both involve user 1 — no
re-verification of the players' open matches happens, and the
at-most-one-open-match invariant is violated by the tick itself. -/
theorem tick_creates_two_open_matches :
    countOpenFor (tickIter queuePair 100 none 0 2).created 1 = 2 ∧
    ¬ countOpenFor (tickIter queuePair 100 none 0 2).created 1 ≤ 1 := by
  exact ⟨rfl, by decide⟩

/-- C4 (amended): the Kafka-consumer pair-formation path
(match/service.py `find_match_for_player`) does re-verify: whenever it
creates a match, neither the requesting user nor the selected opponent
had a PENDING or ACTIVE match in the pre-state, the new row is PENDING,
and it is the only row added.  The business-layer tick
(`MatchService.process_match_queue`) performs no such re-verification and
does not preserve the invariant. -/
theorem find_match_reverifies (ms : List MatchRow) (queue : List PlayerQueueEntry)
    (u : ℕ) (r : ℤ) (newId : ℕ) (prob : Option ℕ) (now : ℤ) (m : MatchRow)
    (h : (find_match_for_player ms queue u r newId prob now).2.2 = some m) :
    hasOpenMatch ms u = false ∧ hasOpenMatch ms m.player2_id = false ∧
    m.player1_id = u ∧ m.status = MatchStatus.PENDING ∧
    (find_match_for_player ms queue u r newId prob now).1 = ms ++ [m] := by
  unfold find_match_for_player at h ⊢
  revert h
  split
  · intro h
    simp at h
  · split
    · intro h
      simp at h
    · split
      · intro h
        simp at h
      · rename_i hbusy hne opp rest hpot hbusy2
        intro h
        have hm : m = mkPendingMatch newId u opp.user_id prob now := by
          have h' : some (mkPendingMatch newId u opp.user_id prob now) = some m := h
          exact (Option.some.inj h').symm
        subst hm
        refine ⟨?_, ?_, rfl, rfl, rfl⟩
        · simpa using hbusy
        · simpa using hbusy2

/-- C4 witness: the re-verification theorem applied to an empty match
table and the two-player queue fixture, with user 3 requesting. -/
theorem find_match_reverifies_witness :
    (find_match_for_player [] queuePair 3 1100 50 (some 7) 4).2.2
      = some (mkPendingMatch 50 3 1 (some 7) 4) ∧
    hasOpenMatch [] 3 = false ∧ hasOpenMatch [] 1 = false := by
  have h := find_match_reverifies [] queuePair 3 1100 50 (some 7) 4
    (mkPendingMatch 50 3 1 (some 7) 4) (by decide)
  exact ⟨by decide, h.1, h.2.1⟩

/-! ## Claim C5 -/

theorem tickStep_queuePair (st : TickState) (hi : st.i = 0) :
    tickStep queuePair 100 none 0 st
      = { i := 0, created := st.created ++
          [mkPendingMatch (100 + st.created.length) 1 2 none 0] } := by
  unfold tickStep
  rw [hi]
  rw [if_pos (by decide : (0 : ℕ) + 1 < queuePair.length)]
  rw [show bestMatchIdx queuePair 0 = some 1 from by decide]
  rfl

/-- C5: the `while i < len(players) - 1` loop of
`MatchService.process_match_queue` (modelled by `tickIter`, with the
match-creation success path committing) never advances `i` after a
successful pairing: on the two-player queue fixture, after every number
`k` of iterations the index is still 0, `k` duplicate matches have been
created, and the loop guard still holds — the tick does not terminate and
pairs the same players again and again, contradicting the claim. -/
theorem tick_loop_never_terminates (k : ℕ) :
    (tickIter queuePair 100 none 0 k).i = 0 ∧
    (tickIter queuePair 100 none 0 k).created.length = k ∧
    (tickIter queuePair 100 none 0 k).i + 1 < queuePair.length := by
  induction k with
  | zero => exact ⟨rfl, rfl, by decide⟩
  | succ n ih =>
      obtain ⟨hi, hlen, _⟩ := ih
      have hstep := tickStep_queuePair (tickIter queuePair 100 none 0 n) hi
      have heq : tickIter queuePair 100 none 0 (n + 1)
          = { i := 0, created := (tickIter queuePair 100 none 0 n).created ++
              [mkPendingMatch (100 + (tickIter queuePair 100 none 0 n).created.length)
                1 2 none 0] } := hstep
      rw [heq]
      refine ⟨rfl, ?_, by show (0 : ℕ) + 1 < queuePair.length; decide⟩
      show ((tickIter queuePair 100 none 0 n).created ++
          [mkPendingMatch (100 + (tickIter queuePair 100 none 0 n).created.length)
            1 2 none 0]).length = n + 1
      rw [List.length_append, hlen]
      rfl

end AlgoRumble
